import Mathlib

/-!
Shallow embedding of the credential-store component of Kaidan
(`src/AccountManager.cpp`) and of the documented login-by-URI surface
(`src/Kaidan.h`), with theorems checking the specification's claims.

QString values are modelled as Lean `String`, QSettings as a record of
optional entries (one per settings key used by the reviewed code), and the
mutex/signal behaviour of each member function as an explicit event trace
(lock, unlock, emitted signal) returned next to the new state.
-/

/-- Signals emitted by `AccountManager` (`emit ...Changed()` and
`emit newCredentialsNeeded()` in AccountManager.cpp). -/
inductive Signal where
  | jidChanged
  | passwordChanged
  | hostChanged
  | portChanged
  | customConnectionSettingsEnabledChanged
  | newCredentialsNeeded
deriving DecidableEq, BEq

/-- Events observable during one member-function call: acquiring the mutex
(`QMutexLocker locker(&m_mutex)`), releasing it (`locker.unlock()` or the
locker's destruction at return), and emitting a signal. -/
inductive Event where
  | lock
  | unlock
  | emit (s : Signal)
deriving DecidableEq, BEq

/-- The signals carried by a trace, in emission order. -/
def emitsOf (tr : List Event) : List Signal :=
  tr.filterMap fun e =>
    match e with
    | .emit s => some s
    | _ => none

/-- The persistent key-value settings store (QSettings collaborator), one
optional entry per key the reviewed code uses. `none` means the key is not
present in the settings file. -/
structure Settings where
  authJid : Option String
  authPasswd : Option String
  authJidResourcePrefix : Option String
  authHost : Option String
  authPort : Option Int
  authUseCustom : Option Bool
  authPasswdVisibility : Option Nat
  authOnline : Option Bool
  notificationsMuted : Option Bool
  favoriteEmojis : Option String
deriving DecidableEq

/-- A settings file with no stored entry. -/
def Settings.empty : Settings :=
  ⟨none, none, none, none, none, none, none, none, none, none⟩

/-- Base64 alphabet (RFC 4648, the one used by `QByteArray::toBase64`). -/
def base64Alphabet : List Char :=
  "ABCDEFGHIJKLMNOPQRSTUVWXYZabcdefghijklmnopqrstuvwxyz0123456789+/".toList

/-- The 6-bit value of a base64 alphabet character, `none` for any other
character (Qt's decoder skips such characters). -/
def base64Value (c : Char) : Option Nat :=
  base64Alphabet.indexOf? c

/-- Base64 encoding of a byte sequence (bytes as `Nat` below 256). -/
def base64EncodeBytes : List Nat → List Char
  | [] => []
  | [a] =>
      [base64Alphabet.getD (a / 4 % 64) 'A',
       base64Alphabet.getD (a % 4 * 16) 'A', '=', '=']
  | [a, b] =>
      [base64Alphabet.getD (a / 4 % 64) 'A',
       base64Alphabet.getD ((a % 4 * 16 + b / 16) % 64) 'A',
       base64Alphabet.getD (b % 16 * 4) 'A', '=']
  | a :: b :: c :: rest =>
      [base64Alphabet.getD (a / 4 % 64) 'A',
       base64Alphabet.getD ((a % 4 * 16 + b / 16) % 64) 'A',
       base64Alphabet.getD ((b % 16 * 4 + c / 64) % 64) 'A',
       base64Alphabet.getD (c % 64) 'A'] ++ base64EncodeBytes rest

/-- Regrouping of a sequence of 6-bit base64 values into bytes. -/
def base64DecodeVals : List Nat → List Nat
  | a :: b :: c :: d :: rest =>
      (a * 4 + b / 16) :: (b % 16 * 16 + c / 4) :: (c % 4 * 64 + d) ::
        base64DecodeVals rest
  | [a, b, c] => [a * 4 + b / 16, b % 16 * 16 + c / 4]
  | [a, b] => [a * 4 + b / 16]
  | _ => []

/-- Model of `QString::fromUtf8(bytes.toBase64())` applied to the UTF-8 bytes
of a string (Qt library collaborator, external to this repository). -/
def toBase64 (s : String) : String :=
  String.mk (base64EncodeBytes (s.toUTF8.toList.map UInt8.toNat))

/-- Model of `QByteArray::fromBase64` applied to a stored string, followed by
Qt's byte-array-to-QString conversion; the decoded bytes are mapped to
characters by code point (this coincides with Qt for ASCII data; no claim
depends on the conversion of non-ASCII bytes). Qt's lenient decoder skips
characters outside the base64 alphabet, including the padding `=`. -/
def fromBase64 (s : String) : String :=
  String.mk ((base64DecodeVals (s.toList.filterMap base64Value)).map Char.ofNat)

/-- The default resource prefix. Modelled from the spec: the constant
`KAIDAN_JID_RESOURCE_DEFAULT_PREFIX` is defined in `Globals.h`, which is not
among the reviewed files; the spec only requires that a default prefix is
applied when none is stored, not a particular value. -/
def KAIDAN_JID_RESOURCE_DEFAULT_PREFIX : String := "kaidan"

/-- `constexpr int PORT_DEFAULT = 5222` (AccountManager.cpp line 42). -/
def PORT_DEFAULT : Int := 5222

/-- `constexpr int PORT_UNSET = -1` (AccountManager.cpp line 43). -/
def PORT_UNSET : Int := -1

/-- The in-memory state of `AccountManager`: one field per data member the
reviewed code reads or writes. -/
structure AccountManager where
  m_jid : String
  m_jidResourcePrefix : String
  m_jidResource : String
  m_password : String
  m_host : String
  m_port : Int
  m_customConnectionSettingsEnabled : Bool
  m_hasNewCredentials : Bool
deriving DecidableEq

/-- The state built by the constructor: QString members default-construct to
the empty string, `m_port` is initialised to `PORT_UNSET`, and the boolean
members start out false (their in-class initialisers live in
AccountManager.h, outside the reviewed files; false matches the spec's
"populated at process start" lifecycle). -/
def AccountManager.init : AccountManager :=
  ⟨"", "", "", "", "", PORT_UNSET, false, false⟩

/-- `QString AccountManager::jid()` — locks, reads `m_jid`, unlocks at
return. -/
def AccountManager.jid (st : AccountManager) : String × List Event :=
  (st.m_jid, [.lock, .unlock])

/-- `void AccountManager::setJid(const QString &)` — locks, writes `m_jid`,
sets `m_hasNewCredentials`, unlocks, then emits `jidChanged`. -/
def AccountManager.setJid (st : AccountManager) (jid : String) :
    AccountManager × List Event :=
  ({ st with m_jid := jid, m_hasNewCredentials := true },
   [.lock, .unlock, .emit .jidChanged])

/-- `AccountManager::generateJidResourceWithRandomSuffix` —
`m_jidResourcePrefix % "." % QXmppUtils::generateStanzaHash(n)`. The random
stanza hash produced by the QXmpp collaborator is passed in as the oracle
argument `suffix`. -/
def AccountManager.generateJidResourceWithRandomSuffix
    (st : AccountManager) (suffix : String) : String :=
  st.m_jidResourcePrefix ++ "." ++ suffix

/-- `void AccountManager::setJidResourcePrefix(const QString &)` — writes
`m_jidResourcePrefix`, then regenerates `m_jidResource` from the new prefix.
No mutex is taken and no signal is emitted in the source. -/
def AccountManager.setJidResourcePrefix (st : AccountManager)
    (jidResourcePrefix : String) (suffix : String) :
    AccountManager × List Event :=
  let st1 := { st with m_jidResourcePrefix := jidResourcePrefix }
  ({ st1 with m_jidResource :=
      AccountManager.generateJidResourceWithRandomSuffix st1 suffix }, [])

/-- `QString AccountManager::jidResource() const` — a fresh resource is
generated (from the oracle `suffix`) when no prefix is set, otherwise the
cached `m_jidResource` is returned. No mutex is taken in the source. -/
def AccountManager.jidResource (st : AccountManager) (suffix : String) :
    String × List Event :=
  (if st.m_jidResourcePrefix.isEmpty then
     AccountManager.generateJidResourceWithRandomSuffix st suffix
   else st.m_jidResource, [])

/-- `QString AccountManager::password()`. -/
def AccountManager.password (st : AccountManager) : String × List Event :=
  (st.m_password, [.lock, .unlock])

/-- `void AccountManager::setPassword(const QString &)`. -/
def AccountManager.setPassword (st : AccountManager) (password : String) :
    AccountManager × List Event :=
  ({ st with m_password := password, m_hasNewCredentials := true },
   [.lock, .unlock, .emit .passwordChanged])

/-- `QString AccountManager::host()`. -/
def AccountManager.host (st : AccountManager) : String × List Event :=
  (st.m_host, [.lock, .unlock])

/-- `void AccountManager::setHost(const QString &)`. -/
def AccountManager.setHost (st : AccountManager) (host : String) :
    AccountManager × List Event :=
  ({ st with m_host := host, m_hasNewCredentials := true },
   [.lock, .unlock, .emit .hostChanged])

/-- `void AccountManager::resetHost()` — `setHost({})`. -/
def AccountManager.resetHost (st : AccountManager) :
    AccountManager × List Event :=
  AccountManager.setHost st ""

/-- `int AccountManager::port()` — `m_port < 0 ? PORT_DEFAULT : m_port`. -/
def AccountManager.port (st : AccountManager) : Int × List Event :=
  (if st.m_port < 0 then PORT_DEFAULT else st.m_port, [.lock, .unlock])

/-- `void AccountManager::setPort(const int)`. -/
def AccountManager.setPort (st : AccountManager) (port : Int) :
    AccountManager × List Event :=
  ({ st with m_port := port, m_hasNewCredentials := true },
   [.lock, .unlock, .emit .portChanged])

/-- `void AccountManager::resetPort()` — `setPort(PORT_UNSET)`. -/
def AccountManager.resetPort (st : AccountManager) :
    AccountManager × List Event :=
  AccountManager.setPort st PORT_UNSET

/-- `bool AccountManager::customConnectionSettingsEnabled()` — reads the
`KAIDAN_SETTINGS_AUTH_USE_CUSTOM` entry of the settings store (an absent
entry converts to false via `QVariant::toBool`), not the data member. -/
def AccountManager.customConnectionSettingsEnabled
    (st : AccountManager) (g : Settings) : Bool × List Event :=
  let _ := st
  (g.authUseCustom.getD false, [.lock, .unlock])

/-- `void AccountManager::setCustomConnectionSettingsEnabled(const bool)` —
writes only the in-memory member; it does not touch the settings store nor
`m_hasNewCredentials`. -/
def AccountManager.setCustomConnectionSettingsEnabled
    (st : AccountManager) (enabled : Bool) : AccountManager × List Event :=
  ({ st with m_customConnectionSettingsEnabled := enabled },
   [.lock, .unlock, .emit .customConnectionSettingsEnabledChanged])

/-- `bool AccountManager::hasNewCredentials() const` — a plain read, no
mutex. -/
def AccountManager.hasNewCredentials (st : AccountManager) :
    Bool × List Event :=
  (st.m_hasNewCredentials, [])

/-- `void AccountManager::setHasNewCredentials(bool)` — a plain write, no
mutex, no signal. -/
def AccountManager.setHasNewCredentials (st : AccountManager) (b : Bool) :
    AccountManager × List Event :=
  ({ st with m_hasNewCredentials := b }, [])

/-- `bool AccountManager::hasEnoughCredentialsForLogin()` —
`!(jid().isEmpty() || password().isEmpty())`; `password()` is only reached
when the short-circuiting `||` needs it. -/
def AccountManager.hasEnoughCredentialsForLogin (st : AccountManager) :
    Bool × List Event :=
  if (AccountManager.jid st).1.isEmpty then
    (false, (AccountManager.jid st).2)
  else
    (!(AccountManager.password st).1.isEmpty,
     (AccountManager.jid st).2 ++ (AccountManager.password st).2)

/-- `bool AccountManager::loadCredentials()` — a no-op returning true when
credentials are already sufficient; otherwise loads jid, password (base64
decoded), resource prefix (default applied when the key is absent), host and
port (PORT_UNSET when the key is absent) from the settings store through the
ordinary setters, clears `m_hasNewCredentials`, and, when credentials are
still insufficient, emits `newCredentialsNeeded` and returns false. The
random resource suffix consumed by `setJidResourcePrefix` is the oracle
argument. Returns (new state, trace, returned bool). -/
def AccountManager.loadCredentials (st : AccountManager) (g : Settings)
    (suffix : String) : AccountManager × List Event × Bool :=
  let c := AccountManager.hasEnoughCredentialsForLogin st
  if c.1 then (st, c.2, true)
  else
    let r1 := AccountManager.setJid st (g.authJid.getD "")
    let r2 := AccountManager.setPassword r1.1 (fromBase64 (g.authPasswd.getD ""))
    let r3 := AccountManager.setJidResourcePrefix r2.1
      (g.authJidResourcePrefix.getD KAIDAN_JID_RESOURCE_DEFAULT_PREFIX) suffix
    let r4 := AccountManager.setHost r3.1 (g.authHost.getD "")
    let r5 := AccountManager.setPort r4.1 (g.authPort.getD PORT_UNSET)
    let st6 := { r5.1 with m_hasNewCredentials := false }
    let c2 := AccountManager.hasEnoughCredentialsForLogin st6
    let tr := c.2 ++ r1.2 ++ r2.2 ++ r3.2 ++ r4.2 ++ r5.2 ++ c2.2
    if c2.1 then (st6, tr, true)
    else (st6, tr ++ [Event.emit Signal.newCredentialsNeeded], false)

/-- `void AccountManager::storeJid()` — writes `jid()` under
`KAIDAN_SETTINGS_AUTH_JID`. -/
def AccountManager.storeJid (st : AccountManager) (g : Settings) : Settings :=
  { g with authJid := some (AccountManager.jid st).1 }

/-- `void AccountManager::storePassword()` — writes the base64-encoded
password under `KAIDAN_SETTINGS_AUTH_PASSWD`. -/
def AccountManager.storePassword (st : AccountManager) (g : Settings) :
    Settings :=
  { g with authPasswd := some (toBase64 (AccountManager.password st).1) }

/-- `void AccountManager::storeCustomConnectionSettings()` — writes the host
only when `m_host` is non-empty and the port only when `m_port` differs from
`PORT_UNSET`. -/
def AccountManager.storeCustomConnectionSettings (st : AccountManager)
    (g : Settings) : Settings :=
  let g1 := if st.m_host.isEmpty then g else { g with authHost := some st.m_host }
  if st.m_port = PORT_UNSET then g1 else { g1 with authPort := some st.m_port }

/-- `void AccountManager::storeCredentials()` — `storeJid(); storePassword();
storeCustomConnectionSettings();`. -/
def AccountManager.storeCredentials (st : AccountManager) (g : Settings) :
    Settings :=
  AccountManager.storeCustomConnectionSettings st
    (AccountManager.storePassword st (AccountManager.storeJid st g))

/-- `void AccountManager::deleteCredentials()` — removes the seven
credential keys from the settings store, clears the in-memory fields (jid
and password through their setters, the resource prefix and resource by
direct `clear()`, host and port through `resetHost`/`resetPort`), and emits
`newCredentialsNeeded`. Returns (new state, new settings, trace). -/
def AccountManager.deleteCredentials (st : AccountManager) (g : Settings) :
    AccountManager × Settings × List Event :=
  let g1 := { g with authJid := none, authJidResourcePrefix := none,
                     authPasswd := none, authHost := none, authPort := none,
                     authUseCustom := none, authPasswdVisibility := none }
  let r1 := AccountManager.setJid st ""
  let st2 := { r1.1 with m_jidResourcePrefix := "", m_jidResource := "" }
  let r3 := AccountManager.setPassword st2 ""
  let r4 := AccountManager.resetHost r3.1
  let r5 := AccountManager.resetPort r4.1
  (r5.1, g1,
   r1.2 ++ r3.2 ++ r4.2 ++ r5.2 ++ [Event.emit Signal.newCredentialsNeeded])

/-- `void AccountManager::deleteSettings()` — removes the three non-credential
keys from the settings store. -/
def AccountManager.deleteSettings (st : AccountManager) (g : Settings) :
    Settings :=
  let _ := st
  { g with authOnline := none, notificationsMuted := none,
           favoriteEmojis := none }

/-- One operation on the credential store, with the arguments the call takes
(random resource suffixes are oracle arguments). -/
inductive Op where
  | setJid (s : String)
  | setJidResourcePrefix (p suffix : String)
  | setPassword (s : String)
  | setHost (s : String)
  | resetHost
  | setPort (p : Int)
  | resetPort
  | setCustomConnectionSettingsEnabled (b : Bool)
  | setHasNewCredentials (b : Bool)
  | loadCredentials (suffix : String)
  | storeJid
  | storePassword
  | storeCustomConnectionSettings
  | storeCredentials
  | deleteCredentials
  | deleteSettings
deriving DecidableEq

/-- Whether an operation can write the resource-prefix field. -/
def Op.changesPrefix : Op → Bool
  | .setJidResourcePrefix _ _ => true
  | .loadCredentials _ => true
  | .deleteCredentials => true
  | _ => false

/-- Whether an operation is one of the two that can clear
`m_hasNewCredentials`: `loadCredentials` (resets the flag after loading) and
`setHasNewCredentials` (invoked by the connection logic when a successful
authenticated connection settles). -/
def Op.clearsNewCredentialsFlag : Op → Bool
  | .loadCredentials _ => true
  | .setHasNewCredentials _ => true
  | _ => false

/-- Small-step interpreter: the state, settings and trace produced by one
operation (returned values are dropped here; the theorems about them use
the operation's own function). -/
def step (st : AccountManager) (g : Settings) (op : Op) :
    AccountManager × Settings × List Event :=
  match op with
  | .setJid s => ((AccountManager.setJid st s).1, g, (AccountManager.setJid st s).2)
  | .setJidResourcePrefix p suffix =>
      ((AccountManager.setJidResourcePrefix st p suffix).1, g,
       (AccountManager.setJidResourcePrefix st p suffix).2)
  | .setPassword s =>
      ((AccountManager.setPassword st s).1, g, (AccountManager.setPassword st s).2)
  | .setHost s =>
      ((AccountManager.setHost st s).1, g, (AccountManager.setHost st s).2)
  | .resetHost => ((AccountManager.resetHost st).1, g, (AccountManager.resetHost st).2)
  | .setPort p =>
      ((AccountManager.setPort st p).1, g, (AccountManager.setPort st p).2)
  | .resetPort => ((AccountManager.resetPort st).1, g, (AccountManager.resetPort st).2)
  | .setCustomConnectionSettingsEnabled b =>
      ((AccountManager.setCustomConnectionSettingsEnabled st b).1, g,
       (AccountManager.setCustomConnectionSettingsEnabled st b).2)
  | .setHasNewCredentials b =>
      ((AccountManager.setHasNewCredentials st b).1, g,
       (AccountManager.setHasNewCredentials st b).2)
  | .loadCredentials suffix =>
      ((AccountManager.loadCredentials st g suffix).1, g,
       (AccountManager.loadCredentials st g suffix).2.1)
  | .storeJid => (st, AccountManager.storeJid st g, [])
  | .storePassword => (st, AccountManager.storePassword st g, [])
  | .storeCustomConnectionSettings =>
      (st, AccountManager.storeCustomConnectionSettings st g, [])
  | .storeCredentials => (st, AccountManager.storeCredentials st g, [])
  | .deleteCredentials =>
      ((AccountManager.deleteCredentials st g).1,
       (AccountManager.deleteCredentials st g).2.1,
       (AccountManager.deleteCredentials st g).2.2)
  | .deleteSettings => (st, AccountManager.deleteSettings st g, [])

/-- Trace contains a lock acquisition. -/
def acquiresLock (tr : List Event) : Bool :=
  tr.contains Event.lock

/-- No signal is emitted while the mutex is held: scans the trace tracking
whether the lock is held (second argument) and rejects an emission under the
lock. -/
def noEmitWhileLocked : List Event → Bool → Bool
  | [], _ => true
  | .lock :: rest, _ => noEmitWhileLocked rest true
  | .unlock :: rest, _ => noEmitWhileLocked rest false
  | .emit _ :: rest, held => !held && noEmitWhileLocked rest held

/-- Resource invariant of the store: whenever a non-empty resource prefix is
set, the cached resource is non-empty (established by `setJidResourcePrefix`,
which always stores `prefix ++ "." ++ suffix`, and by `deleteCredentials`,
which clears both fields together). -/
def resourceInv (st : AccountManager) : Prop :=
  st.m_jidResourcePrefix = "" ∨ st.m_jidResource ≠ ""

/-- The three-way result of the login-by-URI surface (`Kaidan.h`). -/
inductive LoginByUriState where
  | Connecting
  | PasswordNeeded
  | InvalidLoginUri
deriving DecidableEq

/-- Result of `Kaidan::logInByUri`: the returned state, the extracted bare
address and password (when extracted), and whether a login is attempted
(the Disconnected-to-Connecting transition of the state machine). -/
structure LoginByUriResult where
  state : LoginByUriState
  jid : Option String
  password : Option String
  loginAttempted : Bool
deriving DecidableEq

/-- Strips a literal character-list head from a character list. -/
def stripLit : List Char → List Char → Option (List Char)
  | [], cs => some cs
  | _ :: _, [] => none
  | p :: ps, c :: cs => if c = p then stripLit ps cs else none

/-- Splits a character list at the first occurrence of the separator:
returns the part before it and, when present, the part after it. -/
def splitFirst (sep : Char) : List Char → List Char × Option (List Char)
  | [] => ([], none)
  | c :: cs =>
      if c = sep then ([], some cs)
      else
        let r := splitFirst sep cs
        (c :: r.1, r.2)

/-- A bare address of the documented `user@example.org` shape: exactly one
`@`, with non-empty local part and non-empty domain. -/
def isBareAddr (cs : List Char) : Bool :=
  match splitFirst '@' cs with
  | (u, some d) => !u.isEmpty && !d.isEmpty && !d.contains '@'
  | (_, none) => false

/-- Modelled from the spec: `Kaidan::logInByUri` is implemented in
`Kaidan.cpp`, which is not among the reviewed files; only its declaration and
documented behaviour (Kaidan.h lines 197-219) are. Per that documentation:
`xmpp:user@example.org?login;password=abc` is a login attempt (Connecting);
the password-less variants `?login;password=`, `?login;password`, `?login;`,
`?login`, `?` and the query-less URI pre-fill the JID (PasswordNeeded); in
all other cases InvalidLoginUri is returned. A login (the
Disconnected-to-Connecting transition) is attempted only in the Connecting
case. -/
def logInByUri (uri : String) : LoginByUriResult :=
  match stripLit "xmpp:".toList uri.toList with
  | none => ⟨.InvalidLoginUri, none, none, false⟩
  | some rest =>
    let p := splitFirst '?' rest
    if isBareAddr p.1 then
      match p.2 with
      | none => ⟨.PasswordNeeded, some (String.mk p.1), none, false⟩
      | some q =>
        if q = [] ∨ q = "login".toList ∨ q = "login;".toList
            ∨ q = "login;password".toList then
          ⟨.PasswordNeeded, some (String.mk p.1), none, false⟩
        else
          match stripLit "login;password=".toList q with
          | some pw =>
              if pw = [] then ⟨.PasswordNeeded, some (String.mk p.1), none, false⟩
              else ⟨.Connecting, some (String.mk p.1), some (String.mk pw), true⟩
          | none => ⟨.InvalidLoginUri, none, none, false⟩
    else ⟨.InvalidLoginUri, none, none, false⟩

/-- A string of the form `p ++ "." ++ s` is never empty. -/
theorem append_dot_append_ne_empty (p s : String) : p ++ "." ++ s ≠ "" := by
  intro h
  have h2 := congrArg String.length h
  simp [String.length_append] at h2
  exact absurd h2.1.2 (by decide)

/-- A string of the form `"." ++ s` is never empty. -/
theorem dot_append_ne_empty (s : String) : "." ++ s ≠ "" := by
  intro h
  have h2 := congrArg String.length h
  simp [String.length_append] at h2
  exact absurd h2.1 (by decide)

/-- A non-empty string has `isEmpty = false`. -/
theorem isEmpty_false_of_ne (s : String) (h : s ≠ "") : s.isEmpty = false := by
  cases he : s.isEmpty
  · rfl
  · exact absurd ((String.isEmpty_iff s).mp he) h

/-- `isEmpty = false` characterises the non-empty strings. -/
theorem isEmpty_false_iff (s : String) : s.isEmpty = false ↔ s ≠ "" := by
  rw [Bool.eq_false_iff]
  exact not_congr (String.isEmpty_iff s)

/-- C1: `hasEnoughCredentialsForLogin` returns true iff both the stored bare
address and the stored password are non-empty strings; in particular it is
true for whitespace-only and unicode values and false whenever either field
is the empty string. -/
theorem C1_hasEnoughCredentialsForLogin :
    (∀ st : AccountManager,
      (AccountManager.hasEnoughCredentialsForLogin st).1 = true ↔
        (st.m_jid ≠ "" ∧ st.m_password ≠ ""))
    ∧ (AccountManager.hasEnoughCredentialsForLogin
        { AccountManager.init with m_jid := " ", m_password := " \t " }).1 = true
    ∧ (AccountManager.hasEnoughCredentialsForLogin
        { AccountManager.init with m_jid := "ανδρέας@παράδειγμα.ελ",
                                   m_password := "πᾶς🔑" }).1 = true
    ∧ (AccountManager.hasEnoughCredentialsForLogin
        { AccountManager.init with m_jid := "", m_password := "x" }).1 = false
    ∧ (AccountManager.hasEnoughCredentialsForLogin
        { AccountManager.init with m_jid := "x", m_password := "" }).1 = false := by
  refine ⟨?_, by decide, by decide, by decide, by decide⟩
  intro st
  unfold AccountManager.hasEnoughCredentialsForLogin AccountManager.jid
    AccountManager.password
  by_cases h : st.m_jid = ""
  · simp [h, String.isEmpty_iff]
  · simp [h, isEmpty_false_of_ne _ h, isEmpty_false_iff]

/-- C9: `customConnectionSettingsEnabled` returns the value persisted in the
settings store under the "use custom connection" key (false when absent),
not the in-memory member written by `setCustomConnectionSettingsEnabled`;
hence for some boolean `b` a set followed by a get does not return `b`
unless the store holds `b` independently. -/
theorem C9_customConnectionSettingsEnabled :
    (∀ (st : AccountManager) (g : Settings),
      (AccountManager.customConnectionSettingsEnabled st g).1 =
        g.authUseCustom.getD false)
    ∧ ∃ (b : Bool) (st : AccountManager) (g : Settings),
        (AccountManager.customConnectionSettingsEnabled
          (AccountManager.setCustomConnectionSettingsEnabled st b).1 g).1 ≠ b := by
  exact ⟨fun st g => rfl, true, AccountManager.init, Settings.empty, by decide⟩

/-- C10: immediately after `deleteCredentials` the store reports
`hasNewCredentials() = true`: the fields are cleared through the ordinary
setters, which mark the credentials as new, and no explicit reset of the
flag follows. -/
theorem C10_deleteCredentials_marks_new :
    ∀ (st : AccountManager) (g : Settings),
      (AccountManager.hasNewCredentials
        (AccountManager.deleteCredentials st g).1).1 = true := by
  intro st g
  rfl

/-- A login is attempted only when `logInByUri` returns Connecting. -/
theorem logInByUri_state_of_attempted (u : String) :
    (logInByUri u).loginAttempted = true →
    (logInByUri u).state = LoginByUriState.Connecting := by
  unfold logInByUri
  intro h
  repeat' split at h <;> try simp_all

/-- C5: `logInByUri` maps the complete login URI to Connecting with address
and password extracted, the empty-password URI to PasswordNeeded with only
the address extracted, and a non-matching string to InvalidLoginUri; in the
PasswordNeeded and InvalidLoginUri cases no login is attempted. -/
theorem C5_logInByUri :
    logInByUri "xmpp:alice@example.org?login;password=secret" =
      ⟨.Connecting, some "alice@example.org", some "secret", true⟩
    ∧ logInByUri "xmpp:alice@example.org?login;password=" =
      ⟨.PasswordNeeded, some "alice@example.org", none, false⟩
    ∧ logInByUri "not-a-uri" = ⟨.InvalidLoginUri, none, none, false⟩
    ∧ (∀ u : String, (logInByUri u).state ≠ LoginByUriState.Connecting →
        (logInByUri u).loginAttempted = false) := by
  refine ⟨by decide, by decide, by decide, ?_⟩
  intro u h
  cases ha : (logInByUri u).loginAttempted
  · rfl
  · exact absurd (logInByUri_state_of_attempted u ha) h

/-- C5 witness: the theorem applied at the concrete input "not-a-uri". -/
theorem C5_logInByUri_witness :
    (logInByUri "not-a-uri").loginAttempted = false :=
  C5_logInByUri.2.2.2 "not-a-uri" (by decide)

/-- C8 counterexample: the resource-prefix mutator `setJidResourcePrefix` is
an accessor writing an identity field, yet its trace contains no lock
acquisition at all, refuting the claim that every accessor of the store
acquires the mutual-exclusion lock. -/
theorem C8_counterexample :
    acquiresLock
      (AccountManager.setJidResourcePrefix AccountManager.init "res" "abcd").2
      = false := by
  decide

/-- C8 (amended): the jid, password, host, port and
custom-connection-settings accessors each acquire the lock and never emit a
change signal while it is held (every emission happens after the release);
the resource accessors (`setJidResourcePrefix`, `jidResource`) and the
has-new-credentials accessors perform no locking and no emission at all. -/
theorem C8_amended_locking :
    (∀ st : AccountManager,
      acquiresLock (AccountManager.jid st).2 = true
      ∧ noEmitWhileLocked (AccountManager.jid st).2 false = true)
    ∧ (∀ (st : AccountManager) (s : String),
      acquiresLock (AccountManager.setJid st s).2 = true
      ∧ noEmitWhileLocked (AccountManager.setJid st s).2 false = true)
    ∧ (∀ st : AccountManager,
      acquiresLock (AccountManager.password st).2 = true
      ∧ noEmitWhileLocked (AccountManager.password st).2 false = true)
    ∧ (∀ (st : AccountManager) (s : String),
      acquiresLock (AccountManager.setPassword st s).2 = true
      ∧ noEmitWhileLocked (AccountManager.setPassword st s).2 false = true)
    ∧ (∀ st : AccountManager,
      acquiresLock (AccountManager.host st).2 = true
      ∧ noEmitWhileLocked (AccountManager.host st).2 false = true)
    ∧ (∀ (st : AccountManager) (s : String),
      acquiresLock (AccountManager.setHost st s).2 = true
      ∧ noEmitWhileLocked (AccountManager.setHost st s).2 false = true)
    ∧ (∀ st : AccountManager,
      acquiresLock (AccountManager.port st).2 = true
      ∧ noEmitWhileLocked (AccountManager.port st).2 false = true)
    ∧ (∀ (st : AccountManager) (p : Int),
      acquiresLock (AccountManager.setPort st p).2 = true
      ∧ noEmitWhileLocked (AccountManager.setPort st p).2 false = true)
    ∧ (∀ (st : AccountManager) (g : Settings),
      acquiresLock (AccountManager.customConnectionSettingsEnabled st g).2 = true
      ∧ noEmitWhileLocked
          (AccountManager.customConnectionSettingsEnabled st g).2 false = true)
    ∧ (∀ (st : AccountManager) (b : Bool),
      acquiresLock (AccountManager.setCustomConnectionSettingsEnabled st b).2 = true
      ∧ noEmitWhileLocked
          (AccountManager.setCustomConnectionSettingsEnabled st b).2 false = true)
    ∧ (∀ (st : AccountManager) (p s : String),
      (AccountManager.setJidResourcePrefix st p s).2 = [])
    ∧ (∀ (st : AccountManager) (s : String),
      (AccountManager.jidResource st s).2 = [])
    ∧ (∀ st : AccountManager, (AccountManager.hasNewCredentials st).2 = [])
    ∧ (∀ (st : AccountManager) (b : Bool),
      (AccountManager.setHasNewCredentials st b).2 = []) :=
  ⟨fun _ => ⟨rfl, rfl⟩, fun _ _ => ⟨rfl, rfl⟩, fun _ => ⟨rfl, rfl⟩,
   fun _ _ => ⟨rfl, rfl⟩, fun _ => ⟨rfl, rfl⟩, fun _ _ => ⟨rfl, rfl⟩,
   fun _ => ⟨rfl, rfl⟩, fun _ _ => ⟨rfl, rfl⟩, fun _ _ => ⟨rfl, rfl⟩,
   fun _ _ => ⟨rfl, rfl⟩, fun _ _ _ => rfl, fun _ _ => rfl, fun _ => rfl,
   fun _ _ => rfl⟩

/-- C3 counterexample: the resource-prefix mutator `setJidResourcePrefix`
neither sets the has-new-credentials flag nor emits any change signal,
refuting the claim that every listed identity-field write does both. -/
theorem C3_counterexample :
    (AccountManager.setJidResourcePrefix AccountManager.init "res" "abcd").1.m_hasNewCredentials
      = false
    ∧ (AccountManager.setJidResourcePrefix AccountManager.init "res" "abcd").2 = [] := by
  constructor <;> rfl

/-- C3 (amended): `setJid`, `setPassword`, `setHost` and `setPort` each set
the has-new-credentials flag and emit exactly their field's change signal;
the resource-prefix mutator `setJidResourcePrefix` leaves the flag unchanged
and emits nothing; and once true the flag stays true across every operation
of the store other than `loadCredentials` and `setHasNewCredentials` (the
call the connection logic performs when an authenticated connection
settles). -/
theorem C3_amended_new_credentials_flag :
    (∀ (st : AccountManager) (s : String),
      (AccountManager.setJid st s).1.m_hasNewCredentials = true
      ∧ emitsOf (AccountManager.setJid st s).2 = [Signal.jidChanged])
    ∧ (∀ (st : AccountManager) (s : String),
      (AccountManager.setPassword st s).1.m_hasNewCredentials = true
      ∧ emitsOf (AccountManager.setPassword st s).2 = [Signal.passwordChanged])
    ∧ (∀ (st : AccountManager) (s : String),
      (AccountManager.setHost st s).1.m_hasNewCredentials = true
      ∧ emitsOf (AccountManager.setHost st s).2 = [Signal.hostChanged])
    ∧ (∀ (st : AccountManager) (p : Int),
      (AccountManager.setPort st p).1.m_hasNewCredentials = true
      ∧ emitsOf (AccountManager.setPort st p).2 = [Signal.portChanged])
    ∧ (∀ (st : AccountManager) (p s : String),
      (AccountManager.setJidResourcePrefix st p s).1.m_hasNewCredentials
        = st.m_hasNewCredentials
      ∧ emitsOf (AccountManager.setJidResourcePrefix st p s).2 = [])
    ∧ (∀ (st : AccountManager) (g : Settings) (op : Op),
        Op.clearsNewCredentialsFlag op = false →
        st.m_hasNewCredentials = true →
        (step st g op).1.m_hasNewCredentials = true) := by
  refine ⟨fun _ _ => ⟨rfl, rfl⟩, fun _ _ => ⟨rfl, rfl⟩, fun _ _ => ⟨rfl, rfl⟩,
    fun _ _ => ⟨rfl, rfl⟩, fun _ _ _ => ⟨rfl, rfl⟩, ?_⟩
  intro st g op hop hflag
  cases op <;> simp_all [step, Op.clearsNewCredentialsFlag,
    AccountManager.setJid, AccountManager.setPassword, AccountManager.setHost,
    AccountManager.setPort, AccountManager.setJidResourcePrefix,
    AccountManager.setCustomConnectionSettingsEnabled,
    AccountManager.resetHost, AccountManager.resetPort,
    AccountManager.deleteCredentials]

/-- C3 amended witness: the flag is set by a concrete `setJid` and preserved
by a subsequent `setHost` step. -/
theorem C3_amended_witness :
    ((AccountManager.setJid AccountManager.init "a@b").1.m_hasNewCredentials = true
      ∧ emitsOf (AccountManager.setJid AccountManager.init "a@b").2
          = [Signal.jidChanged])
    ∧ (step (AccountManager.setJid AccountManager.init "a@b").1 Settings.empty
        (Op.setHost "h")).1.m_hasNewCredentials = true :=
  ⟨C3_amended_new_credentials_flag.1 AccountManager.init "a@b",
   C3_amended_new_credentials_flag.2.2.2.2.2
     (AccountManager.setJid AccountManager.init "a@b").1 Settings.empty
     (Op.setHost "h") (by decide) (by decide)⟩

/-- C7: the custom port keeps the sentinel `PORT_UNSET` (distinct from any
valid port) in the stored state, applying the default 5222 only at read
time: initially and after `resetPort` the accessor returns the default while
the member holds the sentinel, after `setPort p` with a valid port the
accessor returns `p`, and `storeCustomConnectionSettings` persists the
custom host and port only when they are set/non-default. -/
theorem C7_port_sentinel_and_store :
    AccountManager.init.m_port = PORT_UNSET
    ∧ (AccountManager.port AccountManager.init).1 = PORT_DEFAULT
    ∧ PORT_DEFAULT = 5222
    ∧ (∀ p : Int, 0 ≤ p → p ≤ 65535 → PORT_UNSET ≠ p)
    ∧ (∀ st : AccountManager,
        (AccountManager.resetPort st).1.m_port = PORT_UNSET
        ∧ (AccountManager.port (AccountManager.resetPort st).1).1 = PORT_DEFAULT)
    ∧ (∀ (st : AccountManager) (p : Int), 0 ≤ p →
        (AccountManager.port (AccountManager.setPort st p).1).1 = p)
    ∧ (∀ (st : AccountManager) (g : Settings), st.m_host = "" →
        (AccountManager.storeCustomConnectionSettings st g).authHost = g.authHost)
    ∧ (∀ (st : AccountManager) (g : Settings), st.m_host ≠ "" →
        (AccountManager.storeCustomConnectionSettings st g).authHost = some st.m_host)
    ∧ (∀ (st : AccountManager) (g : Settings), st.m_port = PORT_UNSET →
        (AccountManager.storeCustomConnectionSettings st g).authPort = g.authPort)
    ∧ (∀ (st : AccountManager) (g : Settings), st.m_port ≠ PORT_UNSET →
        (AccountManager.storeCustomConnectionSettings st g).authPort
          = some st.m_port) := by
  refine ⟨rfl, by decide, rfl, ?_, ?_, ?_, ?_, ?_, ?_, ?_⟩
  · intro p h1 h2
    simp only [PORT_UNSET]
    omega
  · intro st
    refine ⟨rfl, ?_⟩
    simp [AccountManager.port, AccountManager.resetPort, AccountManager.setPort,
      PORT_UNSET, PORT_DEFAULT]
  · intro st p hp
    simp only [AccountManager.port, AccountManager.setPort]
    rw [if_neg (by omega)]
  · intro st g h
    simp [AccountManager.storeCustomConnectionSettings, h]
    try (split <;> rfl)
  · intro st g h
    simp [AccountManager.storeCustomConnectionSettings, isEmpty_false_of_ne _ h]
    try (split <;> rfl)
  · intro st g h
    simp [AccountManager.storeCustomConnectionSettings, h]
    try (split <;> rfl)
  · intro st g h
    simp [AccountManager.storeCustomConnectionSettings, h]

/-- C7 witness: the theorem applied at concrete ports, hosts and settings. -/
theorem C7_port_witness :
    PORT_UNSET ≠ (5222 : Int)
    ∧ (AccountManager.port (AccountManager.setPort AccountManager.init 1234).1).1
        = 1234
    ∧ (AccountManager.storeCustomConnectionSettings AccountManager.init
        Settings.empty).authPort = Settings.empty.authPort
    ∧ (AccountManager.storeCustomConnectionSettings
        { AccountManager.init with m_host := "h", m_port := 80 }
        Settings.empty).authHost = some "h" :=
  ⟨C7_port_sentinel_and_store.2.2.2.1 5222 (by decide) (by decide),
   C7_port_sentinel_and_store.2.2.2.2.2.1 AccountManager.init 1234 (by decide),
   C7_port_sentinel_and_store.2.2.2.2.2.2.2.2.1 AccountManager.init
     Settings.empty (by decide),
   C7_port_sentinel_and_store.2.2.2.2.2.2.2.1
     { AccountManager.init with m_host := "h", m_port := 80 }
     Settings.empty (by decide)⟩

/-- C4: `deleteCredentials` removes all seven persisted credential keys,
resets every in-memory identity field (address, resource prefix, resolved
resource, password, custom host, custom port) to empty/unset, emits
`newCredentialsNeeded`, and afterwards the identity accessors report
empty/default values. -/
theorem C4_deleteCredentials :
    ∀ (st : AccountManager) (g : Settings),
      let r := AccountManager.deleteCredentials st g
      r.2.1.authJid = none
      ∧ r.2.1.authJidResourcePrefix = none
      ∧ r.2.1.authPasswd = none
      ∧ r.2.1.authHost = none
      ∧ r.2.1.authPort = none
      ∧ r.2.1.authUseCustom = none
      ∧ r.2.1.authPasswdVisibility = none
      ∧ r.1.m_jid = ""
      ∧ r.1.m_jidResourcePrefix = ""
      ∧ r.1.m_jidResource = ""
      ∧ r.1.m_password = ""
      ∧ r.1.m_host = ""
      ∧ r.1.m_port = PORT_UNSET
      ∧ Signal.newCredentialsNeeded ∈ emitsOf r.2.2
      ∧ (AccountManager.jid r.1).1 = ""
      ∧ (AccountManager.password r.1).1 = ""
      ∧ (AccountManager.host r.1).1 = ""
      ∧ (AccountManager.port r.1).1 = PORT_DEFAULT := by
  intro st g
  refine ⟨rfl, rfl, rfl, rfl, rfl, rfl, rfl, rfl, rfl, rfl, rfl, rfl, rfl,
    ?_, rfl, rfl, rfl, ?_⟩
  · have ht : (AccountManager.deleteCredentials st g).2.2 =
      [Event.lock, Event.unlock, Event.emit Signal.jidChanged,
       Event.lock, Event.unlock, Event.emit Signal.passwordChanged,
       Event.lock, Event.unlock, Event.emit Signal.hostChanged,
       Event.lock, Event.unlock, Event.emit Signal.portChanged,
       Event.emit Signal.newCredentialsNeeded] := rfl
    rw [ht]
    simp [emitsOf]
  · simp [AccountManager.port, AccountManager.deleteCredentials,
      AccountManager.setJid, AccountManager.setPassword,
      AccountManager.resetHost, AccountManager.setHost,
      AccountManager.resetPort, AccountManager.setPort,
      PORT_UNSET, PORT_DEFAULT]

/-- The credential-sufficiency check emits no signal. -/
theorem hasEnough_trace_emits (st : AccountManager) :
    emitsOf (AccountManager.hasEnoughCredentialsForLogin st).2 = [] := by
  unfold AccountManager.hasEnoughCredentialsForLogin
  split <;> simp [emitsOf, AccountManager.jid, AccountManager.password]

/-- Emitted signals distribute over trace concatenation. -/
theorem mem_emitsOf_append (s : Signal) (t1 t2 : List Event) :
    s ∈ emitsOf (t1 ++ t2) ↔ s ∈ emitsOf t1 ∨ s ∈ emitsOf t2 := by
  simp [emitsOf]

/-- `setJid` emits exactly `jidChanged`. -/
theorem emits_setJid (st : AccountManager) (x : String) :
    emitsOf (AccountManager.setJid st x).2 = [Signal.jidChanged] := rfl

/-- `setPassword` emits exactly `passwordChanged`. -/
theorem emits_setPassword (st : AccountManager) (x : String) :
    emitsOf (AccountManager.setPassword st x).2 = [Signal.passwordChanged] := rfl

/-- `setJidResourcePrefix` emits nothing. -/
theorem emits_setJidResourcePrefix (st : AccountManager) (p x : String) :
    emitsOf (AccountManager.setJidResourcePrefix st p x).2 = [] := rfl

/-- `setHost` emits exactly `hostChanged`. -/
theorem emits_setHost (st : AccountManager) (x : String) :
    emitsOf (AccountManager.setHost st x).2 = [Signal.hostChanged] := rfl

/-- `setPort` emits exactly `portChanged`. -/
theorem emits_setPort (st : AccountManager) (p : Int) :
    emitsOf (AccountManager.setPort st p).2 = [Signal.portChanged] := rfl

/-- C2: when credentials are already sufficient `loadCredentials` returns
true without writing any field or emitting any signal; otherwise it loads
address, password, resource prefix (with the default prefix when none is
stored), host and port from the settings store, resets the
has-new-credentials flag to false, emits `newCredentialsNeeded` exactly when
credentials are still insufficient (returning false), and returns true in
every other case. -/
theorem C2_loadCredentials :
    (∀ (st : AccountManager) (g : Settings) (suffix : String),
      (AccountManager.hasEnoughCredentialsForLogin st).1 = true →
        AccountManager.loadCredentials st g suffix =
          (st, (AccountManager.hasEnoughCredentialsForLogin st).2, true)
        ∧ emitsOf (AccountManager.loadCredentials st g suffix).2.1 = [])
    ∧ (∀ (st : AccountManager) (g : Settings) (suffix : String),
      (AccountManager.hasEnoughCredentialsForLogin st).1 = false →
        let L := AccountManager.loadCredentials st g suffix
        L.1.m_jid = g.authJid.getD ""
        ∧ L.1.m_password = fromBase64 (g.authPasswd.getD "")
        ∧ L.1.m_jidResourcePrefix
            = g.authJidResourcePrefix.getD KAIDAN_JID_RESOURCE_DEFAULT_PREFIX
        ∧ L.1.m_host = g.authHost.getD ""
        ∧ L.1.m_port = g.authPort.getD PORT_UNSET
        ∧ L.1.m_hasNewCredentials = false
        ∧ L.2.2 = (AccountManager.hasEnoughCredentialsForLogin L.1).1
        ∧ (L.2.2 = false ↔ Signal.newCredentialsNeeded ∈ emitsOf L.2.1)) := by
  constructor
  · intro st g suffix h
    constructor
    · simp [AccountManager.loadCredentials, h]
    · simp [AccountManager.loadCredentials, h, hasEnough_trace_emits]
  · intro st g suffix h
    simp only [AccountManager.loadCredentials]
    simp only [h, Bool.false_eq_true, if_false]
    refine ⟨?_, ?_, ?_, ?_, ?_, ?_, ?_, ?_⟩ <;> split
    · rfl
    · rfl
    · rfl
    · rfl
    · rfl
    · rfl
    · rfl
    · rfl
    · rfl
    · rfl
    · rfl
    · rfl
    · next h2 => exact h2.symm
    · next h2 =>
        simp only [Bool.not_eq_true] at h2
        exact h2.symm
    · next h2 =>
        simp only [mem_emitsOf_append, emits_setJid, emits_setPassword,
          emits_setJidResourcePrefix, emits_setHost, emits_setPort,
          hasEnough_trace_emits]
        simp [emitsOf]
    · next h2 =>
        simp only [mem_emitsOf_append, emits_setJid, emits_setPassword,
          emits_setJidResourcePrefix, emits_setHost, emits_setPort,
          hasEnough_trace_emits]
        simp [emitsOf]

/-- C2 witness: the theorem applied to a state with sufficient credentials
(no-op branch) and to the initial state with a concrete settings file
(loading branch). -/
theorem C2_loadCredentials_witness :
    AccountManager.loadCredentials
        { AccountManager.init with m_jid := "a@b", m_password := "pw" }
        Settings.empty "abcd"
      = ({ AccountManager.init with m_jid := "a@b", m_password := "pw" },
         (AccountManager.hasEnoughCredentialsForLogin
           { AccountManager.init with m_jid := "a@b", m_password := "pw" }).2,
         true)
    ∧ (AccountManager.loadCredentials AccountManager.init
        { Settings.empty with authJid := some "alice@example.org",
                              authPasswd := some "c2VjcmV0" } "abcd").1.m_password
      = fromBase64
          (({ Settings.empty with authJid := some "alice@example.org",
                                  authPasswd := some "c2VjcmV0" }
            : Settings).authPasswd.getD "")
    ∧ (AccountManager.loadCredentials AccountManager.init
        { Settings.empty with authJid := some "alice@example.org",
                              authPasswd := some "c2VjcmV0" } "abcd").1.m_hasNewCredentials
      = false :=
  ⟨(C2_loadCredentials.1
      { AccountManager.init with m_jid := "a@b", m_password := "pw" }
      Settings.empty "abcd" (by decide)).1,
   (C2_loadCredentials.2 AccountManager.init
      { Settings.empty with authJid := some "alice@example.org",
                            authPasswd := some "c2VjcmV0" } "abcd" (by decide)).2.1,
   (C2_loadCredentials.2 AccountManager.init
      { Settings.empty with authJid := some "alice@example.org",
                            authPasswd := some "c2VjcmV0" } "abcd"
      (by decide)).2.2.2.2.2.1⟩

/-- C6: after `setJidResourcePrefix` with a non-empty prefix `p`, every
subsequent `jidResource` read returns the cached `p ++ "." ++ suffix` fixed
at mutation time, independent of the fresh-suffix oracle; while the prefix
is empty, each read returns a freshly generated value (so successive reads
may differ); the returned resource is never empty (under the invariant the
store maintains, established initially and preserved by every operation);
and no operation other than the prefix-changing ones alters the cached
prefix or resource. -/
theorem C6_jidResource_caching :
    (∀ (st : AccountManager) (p s t : String), p ≠ "" →
      (AccountManager.jidResource
        (AccountManager.setJidResourcePrefix st p s).1 t).1 = p ++ "." ++ s)
    ∧ (∀ (st : AccountManager) (s : String), st.m_jidResourcePrefix = "" →
      (AccountManager.jidResource st s).1 = "." ++ s)
    ∧ (AccountManager.jidResource AccountManager.init "aaaa").1
        ≠ (AccountManager.jidResource AccountManager.init "bbbb").1
    ∧ (∀ (st : AccountManager) (s : String), resourceInv st →
      (AccountManager.jidResource st s).1 ≠ "")
    ∧ resourceInv AccountManager.init
    ∧ (∀ (st : AccountManager) (g : Settings) (op : Op), resourceInv st →
        resourceInv (step st g op).1)
    ∧ (∀ (st : AccountManager) (g : Settings) (op : Op),
        Op.changesPrefix op = false →
        (step st g op).1.m_jidResourcePrefix = st.m_jidResourcePrefix
        ∧ (step st g op).1.m_jidResource = st.m_jidResource) := by
  refine ⟨?_, ?_, by decide, ?_, Or.inl rfl, ?_, ?_⟩
  · intro st p s t hp
    simp [AccountManager.jidResource, AccountManager.setJidResourcePrefix,
      AccountManager.generateJidResourceWithRandomSuffix,
      isEmpty_false_of_ne _ hp]
  · intro st s h
    simp [AccountManager.jidResource, h,
      AccountManager.generateJidResourceWithRandomSuffix]
    exact fun hf => absurd hf (by decide)
  · intro st s hinv
    unfold AccountManager.jidResource
    split
    · exact append_dot_append_ne_empty _ _
    · next hne =>
        refine hinv.resolve_left ?_
        intro hp
        rw [hp] at hne
        exact absurd (by decide) hne
  · intro st g op hinv
    cases op <;> try exact hinv
    · exact Or.inr (append_dot_append_ne_empty _ _)
    · show resourceInv (AccountManager.loadCredentials st g _).1
      simp only [AccountManager.loadCredentials]
      split
      · exact hinv
      · split <;> exact Or.inr (append_dot_append_ne_empty _ _)
    · exact Or.inl rfl
  · intro st g op hop
    cases op <;> first
      | exact ⟨rfl, rfl⟩
      | simp [Op.changesPrefix] at hop

/-- C6 witness: the theorem applied at concrete prefixes, suffixes and a
concrete non-prefix-changing operation. -/
theorem C6_jidResource_witness :
    (AccountManager.jidResource
      (AccountManager.setJidResourcePrefix AccountManager.init "res" "abcd").1
      "zzzz").1 = "res" ++ "." ++ "abcd"
    ∧ (AccountManager.jidResource AccountManager.init "abcd").1 = "." ++ "abcd"
    ∧ (AccountManager.jidResource AccountManager.init "abcd").1 ≠ ""
    ∧ resourceInv (step AccountManager.init Settings.empty (Op.setJid "a")).1
    ∧ ((step AccountManager.init Settings.empty (Op.setJid "a")).1.m_jidResourcePrefix
        = AccountManager.init.m_jidResourcePrefix
      ∧ (step AccountManager.init Settings.empty (Op.setJid "a")).1.m_jidResource
        = AccountManager.init.m_jidResource) :=
  ⟨C6_jidResource_caching.1 AccountManager.init "res" "abcd" "zzzz" (by decide),
   C6_jidResource_caching.2.1 AccountManager.init "abcd" rfl,
   C6_jidResource_caching.2.2.2.1 AccountManager.init "abcd" (Or.inl rfl),
   C6_jidResource_caching.2.2.2.2.2.1 AccountManager.init Settings.empty
     (Op.setJid "a") (Or.inl rfl),
   C6_jidResource_caching.2.2.2.2.2.2 AccountManager.init Settings.empty
     (Op.setJid "a") (by decide)⟩
